import Mathlib

/-!
Verification of the Squirrel-AI repository-analysis pipeline.

The Python sources (`src/app.py`, `src/app_enhanced.py`, `src/backend/main.py`)
implement repository acquisition with an on-disk cache keyed by a URL hash,
character-level fragmentation of source files into overlapping chunks,
embedding and vector indexing of the chunks, a repository summariser with a
deterministic offline fallback, and a retrieval-augmented question-answering
engine.  This file is a shallow embedding of those parts of the code, together
with proofs of the specification claims about them.

External effects (the `git` subprocess, the sentence-transformer embedder, the
Chroma vector store, and the OpenAI / Ollama chat backends) are modelled by
explicit parameters: a `Bool` for the success of the clone subprocess, the
list of retrieved fragment paths for a vector query, and an
`Except String String` for the single chat-completion call (`Except.error e`
models a raised exception carrying message `e`).  File texts are modelled as
`List Char`, matching Python's character-indexed slicing of `str` values.
-/

namespace Squirrel

/-- Ceiling division on naturals: `cdiv a b = ⌈a / b⌉` for `b > 0`. -/
def cdiv (a b : Nat) : Nat := (a + b - 1) / b

/-- One step of the chunking loop shared by `clone_and_prepare` in
`src/app.py` (lines 91-103) and `src/backend/main.py` (lines 207-220):

    start = 0
    while start < text_len:
        end = min(start + CHUNK_SIZE, text_len)
        chunk = text[start:end]
        ...
        start += CHUNK_SIZE - CHUNK_OVERLAP

`chunkGo C O L fuel start` returns the list of `(start_char, end_char)` spans
the loop emits from offset `start` for a file of length `L`, chunk size `C`
and overlap `O`.  `fuel` is an upper bound on the remaining iterations; with
`O < C` the loop advances by `C - O ≥ 1` per iteration, so `fuel = L` from
`start = 0` always suffices. -/
def chunkGo (C O L : Nat) : Nat → Nat → List (Nat × Nat)
  | 0, _ => []
  | fuel + 1, start =>
    if start < L then
      (start, min (start + C) L) :: chunkGo C O L fuel (start + (C - O))
    else []

/-- The list of `(start_char, end_char)` spans produced for a file of length
`L` by the chunking loop of `clone_and_prepare`. -/
def chunkSpans (C O L : Nat) : List (Nat × Nat) := chunkGo C O L L 0

/-- A produced fragment: the stored chunk text together with the
`start_char` / `end_char` metadata recorded for it by `clone_and_prepare`. -/
structure Fragment where
  text : List Char
  start_char : Nat
  end_char : Nat
deriving Repr, DecidableEq

/-- The chunking loop of `clone_and_prepare`, kept at the level of the stored
data: `chunk = text[start:end]` is the character slice `[start, end)` of the
file text, and the metadata records `start_char = start`, `end_char = end`.
Python's `text[start:end]` is `(t.drop start).take (end - start)` on the
character list. -/
def fragGo (C O : Nat) (t : List Char) : Nat → Nat → List Fragment
  | 0, _ => []
  | fuel + 1, start =>
    if start < t.length then
      { text := (t.drop start).take (min (start + C) t.length - start),
        start_char := start,
        end_char := min (start + C) t.length } ::
        fragGo C O t fuel (start + (C - O))
    else []

/-- All fragments produced by `clone_and_prepare` for one file text `t`. -/
def fragments (C O : Nat) (t : List Char) : List Fragment :=
  fragGo C O t t.length 0

/-- Boolean lexicographic order on character lists by code point, the order
Python's `sorted` uses on `str` values. -/
def lexLe : List Char → List Char → Bool
  | [], _ => true
  | _ :: _, [] => false
  | a :: as, b :: bs =>
    if a.toNat = b.toNat then lexLe as bs else decide (a.toNat < b.toNat)

/-- Insert a string into a `lexLe`-sorted list, keeping it sorted. -/
def insertSorted (x : String) : List String → List String
  | [] => [x]
  | y :: ys => if lexLe x.data y.data then x :: y :: ys else y :: insertSorted x ys

/-- Sorting of a list of strings in ascending lexicographic order, the model
of Python's `sorted` on a list of names. -/
def sortStrings : List String → List String
  | [] => []
  | x :: xs => insertSorted x (sortStrings xs)

/-- Test for `p.name.startswith(".")` on an entry name. -/
def startsWithDot (nm : String) : Bool :=
  match nm.data with
  | [] => false
  | c :: _ => c = '.'

/-- The sorted, dot-filtered top-level listing
`sorted([p.name for p in repo_path.iterdir() if not p.name.startswith(".")])`
built by every summariser variant. -/
def topItems (entries : List String) : List String :=
  sortStrings (entries.filter (fun nm => !(startsWithDot nm)))

/-- The listing actually placed in the prompt by `generate_summary` in
`src/backend/main.py` (line 257) and `src/app_enhanced.py` (line 251):
`top_items[:30]`. -/
def backendListing (entries : List String) : List String :=
  (topItems entries).take 30

/-- The listing used by `generate_summary` in `src/app.py` (line 150) and by
`generate_basic_summary` in `src/app_enhanced.py` (line 310):
`top_items[:20]`. -/
def appListing (entries : List String) : List String :=
  (topItems entries).take 20

/-- Whitespace test for the model of Python's `str.strip()`. -/
def isWsChar (c : Char) : Bool := c = ' ' || c = '\t' || c = '\n' || c = '\r'

/-- Model of Python's `str.strip()` on a character list: remove leading and
trailing whitespace. -/
def trimChars (l : List Char) : List Char :=
  ((l.dropWhile isWsChar).reverse.dropWhile isWsChar).reverse

/-- Model of Python's `str.strip()` at the `String` level. -/
def strTrim (s : String) : String := String.mk (trimChars s.data)

/-- The normalised form `question.strip().lower()` computed by
`answer_question` in all three variants. -/
def normalizeQuestion (q : String) : List Char :=
  (trimChars q.data).map Char.toLower

/-- Substring test, the model of Python's `phrase in lower_q`:
`isSubseg needle hay` holds when `needle` occurs contiguously in `hay`. -/
def isSubseg (needle hay : List Char) : Bool :=
  needle.isPrefixOf hay ||
    match hay with
    | [] => needle.isEmpty
    | _ :: t => isSubseg needle t

/-- The fixed meta-question patterns of `answer_question` in
`src/backend/main.py` (line 316) and `src/app_enhanced.py` (line 374):
`["repo about", "what is the repo", "project purpose"]`. -/
def backendMetaPhrases : List (List Char) :=
  ["repo about".data, "what is the repo".data, "project purpose".data]

/-- The meta-question intent check of the backend `answer_question`:
`any(phrase in lower_q for phrase in [...])`. -/
def backendIsMetaQuestion (q : String) : Bool :=
  backendMetaPhrases.any (fun p => isSubseg p (normalizeQuestion q))

/-- The meta-question intent check of `answer_question` in `src/app.py`
(line 187): `"repo about" in lower_q or lower_q.startswith("what is the repo")`. -/
def appIsMetaQuestion (q : String) : Bool :=
  isSubseg "repo about".data (normalizeQuestion q) ||
    "what is the repo".data.isPrefixOf (normalizeQuestion q)

/-- The fixed string the backend `answer_question` returns for a matched
meta-question (`src/backend/main.py` line 317). -/
def backendMetaAnswer : String :=
  "This is a repository analysis. Please ask specific questions about the codebase."

/-- Result of one `answer_question` call in `src/backend/main.py`: the
returned `(answer, context_files)` pair, plus how often each external phase
ran (question embedding, vector-index query, chat-completion call). -/
structure QAOutcome where
  answer : String
  context_files : List String
  embedCalls : Nat
  queryCalls : Nat
  genCalls : Nat
deriving Repr, DecidableEq

/-- Shallow embedding of `answer_question` in `src/backend/main.py`
(lines 309-385).  Retrieval is abstracted by `retrievedPaths`, the `"path"`
metadata of the `TOP_K` fragments the vector query returns (the value
`context_files` accumulates on the successful path); the chat backend by
`gen`, the outcome of the single `chat.completions.create` call. -/
def backendAnswerQuestion (question : String) (retrievedPaths : List String)
    (gen : Except String String) : QAOutcome :=
  if backendIsMetaQuestion question then
    { answer := backendMetaAnswer, context_files := [],
      embedCalls := 0, queryCalls := 0, genCalls := 0 }
  else
    match gen with
    | Except.ok content =>
      { answer := strTrim content, context_files := retrievedPaths,
        embedCalls := 1, queryCalls := 1, genCalls := 1 }
    | Except.error e =>
      { answer := "(Error generating answer: " ++ e ++ ")", context_files := [],
        embedCalls := 1, queryCalls := 1, genCalls := 1 }

/-- Result of one `answer_question` call in `src/app.py`, which returns only
the answer string. -/
structure AppQAOutcome where
  answer : String
  embedCalls : Nat
  queryCalls : Nat
  genCalls : Nat
deriving Repr, DecidableEq

/-- Shallow embedding of `answer_question` in `src/app.py` (lines 179-230).
`repoSummary` is `st.session_state.repo_summary`, the cached repository
summary the meta-question branch returns. -/
def appAnswerQuestion (question : String) (repoSummary : String)
    (gen : Except String String) : AppQAOutcome :=
  if appIsMetaQuestion question then
    { answer := repoSummary, embedCalls := 0, queryCalls := 0, genCalls := 0 }
  else
    match gen with
    | Except.ok content =>
      { answer := strTrim content, embedCalls := 1, queryCalls := 1, genCalls := 1 }
    | Except.error e =>
      { answer := "(Error generating answer: " ++ e ++ ")",
        embedCalls := 1, queryCalls := 1, genCalls := 1 }

/-- Per-file structural record: the function and class name lists extracted by
`extract_code_structure`; these lists are the only parts of the structure
dictionaries the summariser statistics consume
(`len(structure.get('functions', []))` and `len(structure.get('classes', []))`;
for non-Python files both keys are absent, modelled by empty lists). -/
structure FileStructure where
  functions : List String
  classes : List String
deriving Repr, DecidableEq

/-- Suffix test on strings, the model of Python's `str.endswith`. -/
def strEndsWith (s sfx : String) : Bool := sfx.data.isSuffixOf s.data

/-- `python_files`: the number of keys of `code_structure` ending in `.py`. -/
def pyCount (cs : List (String × FileStructure)) : Nat :=
  (cs.filter (fun kv => strEndsWith kv.1 ".py")).length

/-- `js_files`: the number of keys ending in `.js`, `.jsx`, `.ts` or `.tsx`. -/
def jsCount (cs : List (String × FileStructure)) : Nat :=
  (cs.filter (fun kv =>
    strEndsWith kv.1 ".js" || strEndsWith kv.1 ".jsx" ||
      strEndsWith kv.1 ".ts" || strEndsWith kv.1 ".tsx")).length

/-- `total_functions = sum(len(structure.get('functions', [])) ...)`. -/
def functionCount (cs : List (String × FileStructure)) : Nat :=
  (cs.map (fun kv => kv.2.functions.length)).sum

/-- `total_classes = sum(len(structure.get('classes', [])) ...)`. -/
def classCount (cs : List (String × FileStructure)) : Nat :=
  (cs.map (fun kv => kv.2.classes.length)).sum

/-- Model of `"\n".join(items)`. -/
def joinLines : List String → String
  | [] => ""
  | [x] => x
  | x :: y :: ys => x ++ "\n" ++ joinLines (y :: ys)

/-- Concatenation of a list of strings, the model of repeated `summary += s`. -/
def strConcat : List String → String
  | [] => ""
  | x :: xs => x ++ strConcat xs

/-- Model of `file.split('.')[-1] if '.' in file else 'unknown'`: the suffix
after the final dot. -/
def lastExt (f : String) : String :=
  if '.' ∈ f.data then
    String.mk ((f.data.reverse.takeWhile (fun c => !(c = '.'))).reverse)
  else "unknown"

/-- Model of Python's `str.upper()`. -/
def upperStr (s : String) : String := String.mk (s.data.map Char.toUpper)

/-- Model of `readme_text[:2000] + ('...' if len(readme_text) > 2000 else '')`
in `generate_basic_summary` (`src/app_enhanced.py` line 337). -/
def readmeExcerpt (readme : String) : String :=
  String.mk (readme.data.take 2000) ++
    (if readme.data.length > 2000 then "..." else "")

/-- The heuristic primary-language guess of `generate_basic_summary`
(`src/app_enhanced.py` line 350): chosen by file-count majority between the
Python and JavaScript/TypeScript file counts. -/
def primaryLanguageGuess (cs : List (String × FileStructure)) : String :=
  if pyCount cs > jsCount cs then "Python"
  else if jsCount cs > pyCount cs then "JavaScript/TypeScript"
  else "mixed"

/-- The `### 🔍 Key Files Found` block: one line per key of the first ten
entries of `code_structure`, rendered as in
`summary += f"- **(file)** ((ext.upper()))\n"`. -/
def keyFilesBlock (cs : List (String × FileStructure)) : String :=
  strConcat (((cs.map Prod.fst).take 10).map
    (fun f => "- **" ++ f ++ "** (" ++ upperStr (lastExt f) ++ ")\n"))

/-- Shallow embedding of `generate_basic_summary` in `src/app_enhanced.py`
(lines 304-360): the deterministic offline summary, written as the
concatenation of the f-string literals and the interpolated values, split
exactly at the interpolation points. -/
def generateBasicSummary (readme : String) (entries : List String)
    (cs : List (String × FileStructure)) : String :=
  "\n## 📋 Repository Overview (Basic Analysis)\n\n### 📊 Project Statistics"
    ++ "\n- **Total Files**: " ++ toString cs.length
    ++ "\n- **Python Files**: " ++ toString (pyCount cs)
    ++ "\n- **JavaScript/TypeScript Files**: " ++ toString (jsCount cs)
    ++ "\n- **Total Functions**: " ++ toString (functionCount cs)
    ++ "\n- **Total Classes**: " ++ toString (classCount cs)
    ++ "\n\n### 📁 Top-Level Structure\n```\n" ++ joinLines (appListing entries)
    ++ "\n```\n\n### 📖 README Content\n" ++ readmeExcerpt readme
    ++ "\n\n### 🔍 Key Files Found\n" ++ keyFilesBlock cs
    ++ "\n### 💡 Analysis Notes\n- This appears to be a "
    ++ primaryLanguageGuess cs
    ++ " project\n- "
    ++ (if functionCount cs > 0 ∨ classCount cs > 0 then
          "Has significant code structure" else "Basic file structure")
    ++ "\n- "
    ++ (if readme.data.isEmpty then "No README found" else "Contains documentation")
    ++ "\n\n### 🔧 Next Steps\nTo get AI-powered analysis:\n1. Add credits to your OpenAI account, or\n2. Use the original app.py with Ollama (if you have it installed)\n"

/-- Shallow embedding of `generate_summary` in `src/app_enhanced.py`
(lines 236-301): fallback mode or a missing client yields the offline
summary, otherwise the single chat call is made and any raised exception
falls back to the offline summary. -/
def enhancedGenerateSummary (fallbackMode clientAvailable : Bool)
    (gen : Except String String) (readme : String) (entries : List String)
    (cs : List (String × FileStructure)) : String :=
  if fallbackMode then generateBasicSummary readme entries cs
  else if !clientAvailable then generateBasicSummary readme entries cs
  else
    match gen with
    | Except.ok content => strTrim content
    | Except.error _ => generateBasicSummary readme entries cs

/-- Shallow embedding of `generate_summary` in `src/backend/main.py`
(lines 249-307): the result of the single chat call, or on a raised
exception the string `f"(Error generating summary: (e))"`. -/
def backendGenerateSummary (gen : Except String String) : String :=
  match gen with
  | Except.ok content => strTrim content
  | Except.error e => "(Error generating summary: " ++ e ++ ")"

/-- On-disk state of the repository acquirer: the set of cache-slot names
under `cached_repos/` and the set of live temporary clone directories. -/
structure RepoStore where
  cache : List String
  temps : List String
deriving Repr, DecidableEq

/-- Look up the entry count of a named vector collection
(`client.get_collection(name)` returning a collection whose `count()` is the
stored value; `none` models the exception raised for a missing collection). -/
def lookupCount (name : String) (colls : List (String × Nat)) : Option Nat :=
  (colls.find? (fun kv => decide (kv.1 = name))).map (fun kv => kv.2)

/-- Overwrite the entry count of a named collection (`collection.add`). -/
def setCount (name : String) (n : Nat) (colls : List (String × Nat)) :
    List (String × Nat) :=
  colls.map (fun kv => if kv.1 = name then (kv.1, n) else kv)

/-- Result of one `clone_and_prepare` call: the error message if the call
raised, the resulting on-disk state and vector collections, and how often
each external phase ran (the `git clone` subprocess, the batch embedding,
the `collection.add` population). -/
structure PrepOutcome where
  errorMsg : Option String
  store : RepoStore
  collections : List (String × Nat)
  cloneCalls : Nat
  embedCalls : Nat
  addCalls : Nat
deriving Repr, DecidableEq

/-- Steps 3-5 of `clone_and_prepare` in `src/backend/main.py` (lines 190-236):
fragment the matched files, and if any chunks were produced run the batch
embedding once and populate the collection with one entry per chunk
(`if code_chunks:` guards both the embedding and the `collection.add`). -/
def clonePrepareBuild (chunkSize overlap : Nat) (store : RepoStore)
    (colls : List (String × Nat)) (cname : String) (cloneCalls : Nat)
    (files : List (List Char)) : PrepOutcome :=
  let chunks := (files.map (fun t => fragments chunkSize overlap t)).flatten
  if chunks.isEmpty then
    { errorMsg := none, store := store, collections := colls,
      cloneCalls := cloneCalls, embedCalls := 0, addCalls := 0 }
  else
    { errorMsg := none, store := store,
      collections := setCount cname chunks.length colls,
      cloneCalls := cloneCalls, embedCalls := 1, addCalls := 1 }

/-- Step 2 of `clone_and_prepare` in `src/backend/main.py` (lines 180-188):
get or create the per-repository collection `f"repo_chunks_(repo_hash)"`; if
it exists and already holds at least one entry, return at once with no
fragmentation, embedding or index-population work. -/
def clonePrepareIndex (chunkSize overlap : Nat) (store : RepoStore)
    (colls : List (String × Nat)) (h : String) (cloneCalls : Nat)
    (files : List (List Char)) : PrepOutcome :=
  let cname := "repo_chunks_" ++ h
  match lookupCount cname colls with
  | some n =>
    if n > 0 then
      { errorMsg := none, store := store, collections := colls,
        cloneCalls := cloneCalls, embedCalls := 0, addCalls := 0 }
    else
      clonePrepareBuild chunkSize overlap store colls cname cloneCalls files
  | none =>
      clonePrepareBuild chunkSize overlap store ((cname, 0) :: colls) cname
        cloneCalls files

/-- Shallow embedding of `clone_and_prepare` in `src/backend/main.py`
(lines 157-236).  `hash` models `hash_url` (the first sixteen hex digits of
the URL's SHA-256, an arbitrary deterministic function here); `cloneOk` the
success of the `git clone --depth=1` subprocess; `files` the texts of the
matched source files of the checkout.  Step 1: if the cache slot is absent, a
temporary directory is created, the clone runs, and on success the directory
is moved into the cache slot while on failure it is removed
(`shutil.rmtree`) and a `RuntimeError` is raised — in both cases the
temporary directory is gone afterwards, so `temps` is unchanged. -/
def clonePrepare (hash : String → String) (chunkSize overlap : Nat)
    (store : RepoStore) (colls : List (String × Nat)) (url : String)
    (cloneOk : Bool) (files : List (List Char)) : PrepOutcome :=
  let h := hash url
  if h ∈ store.cache then
    clonePrepareIndex chunkSize overlap store colls h 0 files
  else if cloneOk then
    clonePrepareIndex chunkSize overlap
      { cache := h :: store.cache, temps := store.temps } colls h 1 files
  else
    { errorMsg := some "Failed to clone repository. Check the URL or your network.",
      store := store, collections := colls,
      cloneCalls := 1, embedCalls := 0, addCalls := 0 }

/-- Containment of a contiguous segment, the property stated by the summary
claims: `seg` occurs contiguously inside `hay`. -/
def containsSeg (hay seg : String) : Prop := seg.data <:+: hay.data

/-- Ceiling-division recurrence matching one loop iteration. -/
theorem cdiv_step (a b : Nat) (hb : 0 < b) (ha : 0 < a) :
    cdiv a b = cdiv (a - b) b + 1 := by
  unfold cdiv
  rcases le_or_lt b a with h | h
  · have e : a + b - 1 = (a - b + b - 1) + b := by omega
    rw [e, Nat.add_div_right _ hb]
  · have e1 : a - b = 0 := by omega
    have e2 : (0 + b - 1) / b = 0 := Nat.div_eq_of_lt (by omega)
    have e3 : (a + b - 1) / b = 1 :=
      Nat.div_eq_of_lt_le (by omega) (by omega)
    rw [e1, e2, e3]

/-- Characterisation of the strict-inequality comparison with a ceiling
division. -/
theorem lt_cdiv_iff (L S i : Nat) (hS : 0 < S) : i < cdiv L S ↔ i * S < L := by
  unfold cdiv
  rw [Nat.lt_iff_add_one_le, Nat.le_div_iff_mul_le hS]
  have e : (i + 1) * S = i * S + S := by ring
  rw [e]
  omega

/-- The chunking loop emits exactly the arithmetic progression of spans
`(start + i·(C−O), min (start + i·(C−O) + C) L)` while the start offset is
below `L`. -/
theorem chunkGo_eq (C O L : Nat) (hOC : O < C) :
    ∀ fuel start, L - start ≤ fuel →
      chunkGo C O L fuel start =
        (List.range (cdiv (L - start) (C - O))).map
          (fun i => (start + i * (C - O), min (start + i * (C - O) + C) L)) := by
  have hS : 0 < C - O := by omega
  intro fuel
  induction fuel with
  | zero =>
    intro start h
    have h0 : L - start = 0 := by omega
    rw [h0]
    have : cdiv 0 (C - O) = 0 := by
      unfold cdiv
      exact Nat.div_eq_of_lt (by omega)
    rw [this]
    rfl
  | succ fuel ih =>
    intro start h
    by_cases hsL : start < L
    · have hrec := ih (start + (C - O)) (by omega)
      have hstep : chunkGo C O L (fuel + 1) start =
          (start, min (start + C) L) :: chunkGo C O L fuel (start + (C - O)) := by
        simp [chunkGo, hsL]
      rw [hstep, hrec]
      have hsub : L - (start + (C - O)) = L - start - (C - O) := by omega
      have hc : cdiv (L - start) (C - O) = cdiv (L - start - (C - O)) (C - O) + 1 :=
        cdiv_step _ _ hS (by omega)
      rw [hsub, hc, List.range_succ_eq_map]
      simp only [List.map_cons, List.map_map, Nat.zero_mul, Nat.add_zero]
      refine congrArg₂ _ rfl ?_
      refine List.map_congr_left ?_
      intro i _
      have e : (Nat.succ i) * (C - O) = i * (C - O) + (C - O) := by
        rw [Nat.succ_mul]
      simp only [Function.comp_apply, e]
      have e2 : start + (C - O) + i * (C - O) = start + (i * (C - O) + (C - O)) := by
        omega
      rw [e2]
    · have h0 : L - start = 0 := by omega
      have hz : cdiv 0 (C - O) = 0 := by
        unfold cdiv
        exact Nat.div_eq_of_lt (by omega)
      rw [h0, hz]
      simp [chunkGo, hsL]

/-- Closed form of `chunkSpans`. -/
theorem chunkSpans_eq (C O L : Nat) (hOC : O < C) :
    chunkSpans C O L =
      (List.range (cdiv L (C - O))).map
        (fun i => (i * (C - O), min (i * (C - O) + C) L)) := by
  have := chunkGo_eq C O L hOC L 0 (by omega)
  simpa [chunkSpans] using this

/-- Invariant of the fragment list: every produced fragment has a non-empty
stored text equal to the recorded character slice, with well-formed bounds. -/
theorem fragGo_invariant (C O : Nat) (t : List Char) (hOC : O < C) :
    ∀ fuel start f, f ∈ fragGo C O t fuel start →
      f.text ≠ [] ∧ f.text = (t.take f.end_char).drop f.start_char ∧
        f.start_char < f.end_char ∧ f.end_char ≤ t.length ∧
        f.end_char - f.start_char ≤ C := by
  intro fuel
  induction fuel with
  | zero =>
    intro start f hf
    simp [fragGo] at hf
  | succ fuel ih =>
    intro start f hf
    by_cases hs : start < t.length
    · rw [fragGo, if_pos hs, List.mem_cons] at hf
      rcases hf with hf | hf
      · subst hf
        dsimp only
        refine ⟨?_, ?_, by omega, by omega, by omega⟩
        · intro hnil
          have hlen := congrArg List.length hnil
          rw [List.length_take, List.length_drop, List.length_nil] at hlen
          omega
        · exact (List.drop_take _ _ _).symm
      · exact ih _ f hf
    · rw [fragGo, if_neg hs] at hf
      simp at hf

/-- Totality of the lexicographic order. -/
theorem lexLe_total : ∀ a b : List Char, lexLe a b = true ∨ lexLe b a = true := by
  intro a
  induction a with
  | nil => intro b; left; rfl
  | cons x xs ih =>
    intro b
    cases b with
    | nil => right; rfl
    | cons y ys =>
      simp only [lexLe]
      by_cases hxy : x.toNat = y.toNat
      · have hyx : y.toNat = x.toNat := hxy.symm
        rcases ih ys with h | h
        · left; simp [hxy, h]
        · right; simp [hyx, h]
      · have hyx : ¬ y.toNat = x.toNat := fun e => hxy e.symm
        rcases Nat.lt_or_ge x.toNat y.toNat with h | h
        · left; simp [hxy, h]
        · right; simp [hyx]; omega

/-- Transitivity of the lexicographic order. -/
theorem lexLe_trans : ∀ a b c : List Char, lexLe a b = true → lexLe b c = true →
    lexLe a c = true := by
  intro a
  induction a with
  | nil => intro b c _ _; rfl
  | cons x xs ih =>
    intro b c hab hbc
    cases b with
    | nil => simp [lexLe] at hab
    | cons y ys =>
      cases c with
      | nil => simp [lexLe] at hbc
      | cons z zs =>
        simp only [lexLe] at hab hbc ⊢
        by_cases hxy : x.toNat = y.toNat <;> by_cases hyz : y.toNat = z.toNat
        · have hxz : x.toNat = z.toNat := by omega
          simp [hxy] at hab
          simp [hyz] at hbc
          simp [hxz]
          exact ih _ _ hab hbc
        · simp [hxy] at hab
          simp [hyz] at hbc
          have hxz : ¬ x.toNat = z.toNat := by omega
          simp [hxz]
          omega
        · simp [hxy] at hab
          simp [hyz] at hbc
          have hxz : ¬ x.toNat = z.toNat := by omega
          simp [hxz]
          omega
        · simp [hxy] at hab
          simp [hyz] at hbc
          have hxz : ¬ x.toNat = z.toNat := by omega
          simp [hxz]
          omega

/-- Membership in an insertion. -/
theorem mem_insertSorted (x y : String) :
    ∀ l : List String, y ∈ insertSorted x l ↔ y = x ∨ y ∈ l := by
  intro l
  induction l with
  | nil => simp [insertSorted]
  | cons z zs ih =>
    by_cases h : lexLe x.data z.data
    · simp [insertSorted, h]
    · simp [insertSorted, h, ih]
      tauto

/-- Membership is preserved by sorting. -/
theorem mem_sortStrings (y : String) :
    ∀ l : List String, y ∈ sortStrings l ↔ y ∈ l := by
  intro l
  induction l with
  | nil => simp [sortStrings]
  | cons z zs ih =>
    simp [sortStrings, mem_insertSorted, ih]

/-- Insertion preserves sortedness. -/
theorem pairwise_insertSorted (x : String) :
    ∀ l : List String,
      List.Pairwise (fun a b => lexLe a.data b.data = true) l →
      List.Pairwise (fun a b => lexLe a.data b.data = true) (insertSorted x l) := by
  intro l
  induction l with
  | nil =>
    intro _
    simp [insertSorted]
  | cons z zs ih =>
    intro hp
    rw [List.pairwise_cons] at hp
    by_cases h : lexLe x.data z.data
    · rw [insertSorted, if_pos h, List.pairwise_cons]
      refine ⟨?_, by rw [List.pairwise_cons]; exact hp⟩
      intro b hb
      rcases List.mem_cons.mp hb with rfl | hb
      · exact h
      · exact lexLe_trans _ _ _ h (hp.1 b hb)
    · rw [insertSorted, if_neg h, List.pairwise_cons]
      have hzx : lexLe z.data x.data = true := by
        rcases lexLe_total x.data z.data with ht | ht
        · exact absurd ht h
        · exact ht
      refine ⟨?_, ih hp.2⟩
      intro b hb
      rcases (mem_insertSorted x b zs).mp hb with rfl | hb
      · exact hzx
      · exact hp.1 b hb

/-- The sorting function produces a sorted list. -/
theorem pairwise_sortStrings :
    ∀ l : List String,
      List.Pairwise (fun a b => lexLe a.data b.data = true) (sortStrings l) := by
  intro l
  induction l with
  | nil => simp [sortStrings]
  | cons z zs ih => exact pairwise_insertSorted z _ ih

/-- The boolean substring test agrees with contiguous containment. -/
theorem isSubseg_iff (needle : List Char) :
    ∀ hay, isSubseg needle hay = true ↔ needle <:+: hay := by
  intro hay
  induction hay with
  | nil =>
    rw [isSubseg]
    constructor
    · intro h
      rcases Bool.or_eq_true_iff.mp h with h | h
      · exact List.IsPrefix.isInfix (List.isPrefixOf_iff_prefix.mp h)
      · rw [List.isEmpty_iff] at h
        rw [h]
    · intro h
      have : needle = [] := List.eq_nil_of_infix_nil h
      rw [this]
      rfl
  | cons c t ih =>
    rw [isSubseg]
    constructor
    · intro h
      rcases Bool.or_eq_true_iff.mp h with h | h
      · exact List.IsPrefix.isInfix (List.isPrefixOf_iff_prefix.mp h)
      · exact List.infix_cons (ih.mp h)
    · intro h
      rcases List.infix_cons_iff.mp h with h | h
      · exact Bool.or_eq_true_iff.mpr (Or.inl (List.isPrefixOf_iff_prefix.mpr h))
      · exact Bool.or_eq_true_iff.mpr (Or.inr (ih.mpr h))

/-- Containment follows from an explicit decomposition of the haystack. -/
theorem containsSeg_of_eq (hay seg a b : String)
    (h : hay.data = a.data ++ seg.data ++ b.data) : containsSeg hay seg :=
  ⟨a.data, b.data, h.symm⟩

/-- The fragment at index `i` of `chunkSpans`. -/
theorem chunkSpans_get (C O L i : Nat) (hOC : O < C)
    (h : i < (chunkSpans C O L).length) :
    (chunkSpans C O L).get ⟨i, h⟩ = (i * (C - O), min (i * (C - O) + C) L) := by
  have he := chunkSpans_eq C O L hOC
  rw [List.get_of_eq he]
  simp [List.get_eq_getElem]

/-- Claim C1, counterexample: with chunk size C = 500 and overlap O = 50 (the
configuration of `src/app.py`), a file of length L = 460 satisfies L ≤ C but
is split into two fragments, not one: the loop advances the start offset by
C − O = 450 < 460, so a second iteration runs.  The claimed count formula
`1 when L ≤ C` is therefore false on the code. -/
theorem chunk_count_formula_cex :
    460 ≤ 500 ∧ (chunkSpans 500 50 460).length ≠ 1 := by decide

/-- Claim C1 (amended): for every file fragmented by `clone_and_prepare` with
chunk size C and overlap O (O < C), the produced fragment spans cover [0, L)
contiguously with no gaps for file length L, every span lies inside [0, L),
and the number of fragments equals `ceil(L / (C − O))` — in particular 0 for
an empty file, rather than `1 when L ≤ C and ceil((L−O)/(C−O)) otherwise` as
claimed. -/
theorem chunk_coverage_and_count (C O L : Nat) (hOC : O < C) :
    (∀ x, x < L → ∃ p ∈ chunkSpans C O L, p.1 ≤ x ∧ x < p.2) ∧
      (∀ p ∈ chunkSpans C O L, p.1 < L ∧ p.2 ≤ L) ∧
      (chunkSpans C O L).length = cdiv L (C - O) := by
  have hS : 0 < C - O := by omega
  rw [chunkSpans_eq C O L hOC]
  refine ⟨?_, ?_, ?_⟩
  · intro x hx
    refine ⟨(x / (C - O) * (C - O), min (x / (C - O) * (C - O) + C) L),
      List.mem_map.mpr ⟨x / (C - O), List.mem_range.mpr ?_, rfl⟩, ?_, ?_⟩
    · rw [lt_cdiv_iff _ _ _ hS]
      exact Nat.lt_of_le_of_lt (Nat.div_mul_le_self x (C - O)) hx
    · exact Nat.div_mul_le_self x (C - O)
    · have h1 := Nat.div_add_mod x (C - O)
      rw [Nat.mul_comm (C - O) (x / (C - O))] at h1
      have h2 : x % (C - O) < C - O := Nat.mod_lt x hS
      refine Nat.lt_min.mpr ⟨?_, hx⟩
      omega
  · intro p hp
    rcases List.mem_map.mp hp with ⟨i, hi, rfl⟩
    rw [List.mem_range, lt_cdiv_iff _ _ _ hS] at hi
    exact ⟨hi, min_le_right _ _⟩
  · rw [List.length_map, List.length_range]

/-- Witness for the amended C1 theorem at C = 500, O = 50, L = 1200: the file
of the end-to-end example yields `ceil(1200 / 450) = 3` fragments. -/
theorem chunk_coverage_and_count_witness :
    (chunkSpans 500 50 1200).length = cdiv 1200 (500 - 50) :=
  (chunk_coverage_and_count 500 50 1200 (by decide)).2.2

/-- Claim C2: fragment i produced by `clone_and_prepare` covers exactly the
character span `[i(C−O), min(i(C−O)+C, L))`; every fragment's start offset is
below L (fragmentation stops once the start offset reaches L); an empty file
yields zero fragments; and with C = 500, O = 50 a 1200-character file yields
exactly the spans [0,500), [450,950), [900,1200) while a 50-character file
yields exactly [0,50). -/
theorem chunk_span_formula :
    (∀ C O L i, O < C → ∀ h : i < (chunkSpans C O L).length,
        (chunkSpans C O L).get ⟨i, h⟩ =
          (i * (C - O), min (i * (C - O) + C) L)) ∧
      (∀ C O L, O < C → ∀ p ∈ chunkSpans C O L, p.1 < L) ∧
      (∀ C O : Nat, chunkSpans C O 0 = []) ∧
      chunkSpans 500 50 1200 = [(0, 500), (450, 950), (900, 1200)] ∧
      chunkSpans 500 50 50 = [(0, 50)] := by
  refine ⟨?_, ?_, ?_, by decide, by decide⟩
  · intro C O L i hOC h
    exact chunkSpans_get C O L i hOC h
  · intro C O L hOC p hp
    have hS : 0 < C - O := by omega
    rw [chunkSpans_eq C O L hOC] at hp
    rcases List.mem_map.mp hp with ⟨i, hi, rfl⟩
    rw [List.mem_range, lt_cdiv_iff _ _ _ hS] at hi
    exact hi
  · intro C O
    rfl

/-- Witness for the C2 theorem: the third fragment of the 1200-character
example file covers [900, 1200). -/
theorem chunk_span_formula_witness :
    (chunkSpans 500 50 1200).get ⟨2, by decide⟩ = (900, 1200) :=
  (chunk_span_formula.1 500 50 1200 2 (by decide) (by decide)).trans (by decide)

/-- Claim C9: every fragment produced by `clone_and_prepare` is non-empty and
its stored text equals exactly the file's character slice
`[start_char, end_char)` recorded in its metadata, with
`0 ≤ start_char < end_char ≤ length` and `end_char − start_char ≤ C`. -/
theorem fragment_wellformed (C O : Nat) (t : List Char) (f : Fragment)
    (hOC : O < C) (hf : f ∈ fragments C O t) :
    f.text ≠ [] ∧ f.text = (t.take f.end_char).drop f.start_char ∧
      f.start_char < f.end_char ∧ f.end_char ≤ t.length ∧
      f.end_char - f.start_char ≤ C :=
  fragGo_invariant C O t hOC t.length 0 f hf

/-- Witness for the C9 theorem: the first fragment of the file
"hello world" with C = 4, O = 1. -/
theorem fragment_wellformed_witness :
    (⟨"hell".data, 0, 4⟩ : Fragment).text ≠ [] ∧
      (⟨"hell".data, 0, 4⟩ : Fragment).text =
        ("hello world".data.take 4).drop 0 ∧
      (⟨"hell".data, 0, 4⟩ : Fragment).start_char <
        (⟨"hell".data, 0, 4⟩ : Fragment).end_char ∧
      (⟨"hell".data, 0, 4⟩ : Fragment).end_char ≤ "hello world".data.length ∧
      (⟨"hell".data, 0, 4⟩ : Fragment).end_char -
        (⟨"hell".data, 0, 4⟩ : Fragment).start_char ≤ 4 :=
  fragment_wellformed 4 1 "hello world".data ⟨"hell".data, 0, 4⟩ (by decide)
    (by decide)

/-- Claim C3, counterexample: on the meta-question "What is the repo about?"
with cached repository summary "This project is a RAG demo.", the backend
`answer_question` (`src/backend/main.py` line 317) returns a fixed redirect
string, not the cached repository Summary, while the `src/app.py` variant
does return the cached summary. -/
theorem meta_shortcut_cex :
    (backendAnswerQuestion "What is the repo about?" ["a.py"]
        (Except.ok "x")).answer = backendMetaAnswer ∧
      backendMetaAnswer ≠ "This project is a RAG demo." ∧
      backendMetaAnswer ≠ "" ∧
      (appAnswerQuestion "What is the repo about?" "This project is a RAG demo."
          (Except.ok "x")).answer = "This project is a RAG demo." := by
  decide

/-- Claim C3 (amended): for every question whose normalised (trimmed,
lowercased) form matches one of the fixed "what is this repository about"
patterns, `answer_question` makes no embedding, retrieval, or generation
call and returns immediately — in `src/app.py` the cached repository
Summary, but in `src/backend/main.py` a fixed redirect string rather than
the cached Summary. -/
theorem meta_shortcut_no_calls (q : String) (paths : List String)
    (gen : Except String String) (summary : String)
    (hb : backendIsMetaQuestion q = true) (ha : appIsMetaQuestion q = true) :
    backendAnswerQuestion q paths gen =
      { answer := backendMetaAnswer, context_files := [],
        embedCalls := 0, queryCalls := 0, genCalls := 0 } ∧
      appAnswerQuestion q summary gen =
        { answer := summary, embedCalls := 0, queryCalls := 0, genCalls := 0 } := by
  simp [backendAnswerQuestion, appAnswerQuestion, hb, ha]

/-- Witness for the amended C3 theorem on the question
"what is the repo about". -/
theorem meta_shortcut_no_calls_witness :
    backendAnswerQuestion "what is the repo about" ["a.py"] (Except.ok "x") =
      { answer := backendMetaAnswer, context_files := [],
        embedCalls := 0, queryCalls := 0, genCalls := 0 } ∧
      appAnswerQuestion "what is the repo about" "S" (Except.ok "x") =
        { answer := "S", embedCalls := 0, queryCalls := 0, genCalls := 0 } :=
  meta_shortcut_no_calls "what is the repo about" ["a.py"] (Except.ok "x") "S"
    (by decide) (by decide)

/-- Claim C7: for every question that reaches the generation step (the
meta-question shortcut did not trigger), a failing language-model call makes
`answer_question` return the formatted error string
`"(Error generating answer: <e>)"` — a recognizable failure prefix — as the
answer, rather than raising an exception; the functions are total, so no
exception escapes. -/
theorem generation_failure_soft (q : String) (paths : List String) (e : String)
    (summary : String) (hb : backendIsMetaQuestion q = false)
    (ha : appIsMetaQuestion q = false) :
    (backendAnswerQuestion q paths (Except.error e)).answer
        = "(Error generating answer: " ++ e ++ ")" ∧
      (appAnswerQuestion q summary (Except.error e)).answer
        = "(Error generating answer: " ++ e ++ ")" := by
  simp [backendAnswerQuestion, appAnswerQuestion, hb, ha]

/-- Witness for the C7 theorem on the question "how does it work" with a
backend failure message "timeout". -/
theorem generation_failure_soft_witness :
    (backendAnswerQuestion "how does it work" ["a.py"]
        (Except.error "timeout")).answer
        = "(Error generating answer: " ++ "timeout" ++ ")" ∧
      (appAnswerQuestion "how does it work" "S" (Except.error "timeout")).answer
        = "(Error generating answer: " ++ "timeout" ++ ")" :=
  generation_failure_soft "how does it work" ["a.py"] "timeout" "S"
    (by decide) (by decide)

/-- Claim C10: the backend `answer_question` returns an empty source-file
list whenever the meta-question shortcut triggers or the generation call
fails, even when retrieval has already produced matching fragments
(`paths` is arbitrary in the failure case); a non-empty `context_files` list
therefore implies the shortcut did not trigger and the generation call
succeeded. -/
theorem context_files_imply_generation (q : String) (paths : List String)
    (gen : Except String String) :
    (backendIsMetaQuestion q = true →
        (backendAnswerQuestion q paths gen).context_files = []) ∧
      (∀ e, gen = Except.error e →
        (backendAnswerQuestion q paths gen).context_files = []) ∧
      ((backendAnswerQuestion q paths gen).context_files ≠ [] →
        backendIsMetaQuestion q = false ∧ ∃ a, gen = Except.ok a) := by
  by_cases hb : backendIsMetaQuestion q = true
  · simp [backendAnswerQuestion, hb]
  · rw [Bool.not_eq_true] at hb
    cases gen with
    | ok a => simp [backendAnswerQuestion, hb]
    | error e => simp [backendAnswerQuestion, hb]

/-- Witness for the C10 theorem: a non-meta question with successful
generation yields a successful-generation conclusion. -/
theorem context_files_imply_generation_witness :
    backendIsMetaQuestion "how is authentication implemented" = false ∧
      ∃ a, (Except.ok "ans" : Except String String) = Except.ok a :=
  (context_files_imply_generation "how is authentication implemented"
      ["auth.py"] (Except.ok "ans")).2.2 (by decide)

/-- Claim C5: for every URL whose checkout fails, `clone_and_prepare` removes
the partial temporary clone directory (the set of live temporary directories
is unchanged), signals an acquisition error to the caller (the
`RuntimeError` message), and leaves the cache slot for that URL's identifier
absent. -/
theorem clone_failure_cleanup (hash : String → String) (chunkSize overlap : Nat)
    (store : RepoStore) (colls : List (String × Nat)) (url : String)
    (files : List (List Char)) (hmiss : hash url ∉ store.cache) :
    (clonePrepare hash chunkSize overlap store colls url false files).errorMsg
        = some "Failed to clone repository. Check the URL or your network." ∧
      (clonePrepare hash chunkSize overlap store colls url false files).store.temps
        = store.temps ∧
      hash url ∉
        (clonePrepare hash chunkSize overlap store colls url false files).store.cache ∧
      (clonePrepare hash chunkSize overlap store colls url false files).store.cache
        = store.cache := by
  simp [clonePrepare, hmiss]

/-- Witness for the C5 theorem on an empty cache. -/
theorem clone_failure_cleanup_witness :
    (clonePrepare (fun _ => "h") 1000 100 ⟨[], []⟩ [] "u" false []).errorMsg
        = some "Failed to clone repository. Check the URL or your network." ∧
      (clonePrepare (fun _ => "h") 1000 100 ⟨[], []⟩ [] "u" false []).store.temps
        = ([] : List String) ∧
      (fun _ : String => "h") "u" ∉
        (clonePrepare (fun _ => "h") 1000 100 ⟨[], []⟩ [] "u" false []).store.cache ∧
      (clonePrepare (fun _ => "h") 1000 100 ⟨[], []⟩ [] "u" false []).store.cache
        = ([] : List String) :=
  clone_failure_cleanup (fun _ => "h") 1000 100 ⟨[], []⟩ [] "u" [] (by decide)

/-- Claim C6: a call to `clone_and_prepare` for an already-cached repository
identifier performs no checkout, and when the repository's vector collection
already holds at least one entry the entire fragmentation / embedding /
index-population phase is skipped and the existing collection is reused
unchanged. -/
theorem cached_build_idempotent (hash : String → String)
    (chunkSize overlap : Nat) (store : RepoStore)
    (colls : List (String × Nat)) (url : String) (cloneOk : Bool)
    (files : List (List Char)) (n : Nat)
    (hcached : hash url ∈ store.cache)
    (hcount : lookupCount ("repo_chunks_" ++ hash url) colls = some n)
    (hpos : 0 < n) :
    clonePrepare hash chunkSize overlap store colls url cloneOk files =
      { errorMsg := none, store := store, collections := colls,
        cloneCalls := 0, embedCalls := 0, addCalls := 0 } := by
  simp [clonePrepare, hcached, clonePrepareIndex, hcount, hpos]

/-- Witness for the C6 theorem: a cached identifier with a three-entry
collection. -/
theorem cached_build_idempotent_witness :
    clonePrepare (fun _ => "h") 1000 100 ⟨["h"], []⟩ [("repo_chunks_h", 3)]
        "u" true ["hi".data] =
      { errorMsg := none, store := ⟨["h"], []⟩,
        collections := [("repo_chunks_h", 3)],
        cloneCalls := 0, embedCalls := 0, addCalls := 0 } :=
  cached_build_idempotent (fun _ => "h") 1000 100 ⟨["h"], []⟩
    [("repo_chunks_h", 3)] "u" true ["hi".data] 3 (by decide) (by decide)
    (by decide)

/-- Containment is preserved by appending on the right. -/
theorem containsSeg_append_right (hay b seg : String) (h : containsSeg hay seg) :
    containsSeg (hay ++ b) seg := by
  rcases h with ⟨t, u, hdq⟩
  refine ⟨t, u ++ b.data, ?_⟩
  rw [String.data_append, ← hdq]
  simp [List.append_assoc]

/-- A two-atom segment at the end of a concatenation is contained in it. -/
theorem containsSeg_tail (p l n : String) : containsSeg ((p ++ l) ++ n) (l ++ n) := by
  refine ⟨p.data, [], ?_⟩
  simp [String.data_append, List.append_assoc]

/-- A string contains itself. -/
theorem containsSeg_refl (s : String) : containsSeg s s :=
  ⟨[], [], by simp⟩

/-- Claim C8: for every repository, the top-level listing passed to the
summariser contains at most 30 entry names, sorted in ascending
lexicographic order, drawn from the repository's top-level directory
entries.  `src/backend/main.py` and the chat path of `src/app_enhanced.py`
use `top_items[:30]`; `src/app.py` and `generate_basic_summary` use
`top_items[:20]`, also at most 30. -/
theorem listing_bounded_sorted (entries : List String) :
    (backendListing entries).length ≤ 30 ∧
      (appListing entries).length ≤ 30 ∧
      List.Pairwise (fun a b => lexLe a.data b.data = true)
        (backendListing entries) ∧
      List.Pairwise (fun a b => lexLe a.data b.data = true)
        (appListing entries) ∧
      (∀ x ∈ backendListing entries, x ∈ entries) ∧
      (∀ x ∈ appListing entries, x ∈ entries) := by
  have hsort :=
    pairwise_sortStrings (entries.filter (fun nm => !(startsWithDot nm)))
  refine ⟨?_, ?_, ?_, ?_, ?_, ?_⟩
  · rw [backendListing, List.length_take]
    exact (min_le_left _ _).trans (by omega)
  · rw [appListing, List.length_take]
    exact (min_le_left _ _).trans (by omega)
  · exact List.Pairwise.sublist (List.take_sublist _ _) hsort
  · exact List.Pairwise.sublist (List.take_sublist _ _) hsort
  · intro x hx
    have h1 : x ∈ topItems entries := (List.take_sublist _ _).subset hx
    rw [topItems, mem_sortStrings] at h1
    exact (List.mem_filter.mp h1).1
  · intro x hx
    have h1 : x ∈ topItems entries := (List.take_sublist _ _).subset hx
    rw [topItems, mem_sortStrings] at h1
    exact (List.mem_filter.mp h1).1

/-- Witness for the C8 theorem on a concrete directory listing. -/
theorem listing_bounded_sorted_witness :
    "app.py" ∈ ["src", ".git", "README.md", "app.py"] :=
  (listing_bounded_sorted ["src", ".git", "README.md", "app.py"]).2.2.2.2.1
    "app.py" (by decide)

/-- Claim C4, counterexample: in `src/backend/main.py` (lines 298-307),
`generate_summary` on a failing language-model call returns the formatted
error string, not a deterministic offline summary built from the
statistics: the result carries no "Total Files" count at all. -/
theorem summary_fallback_cex :
    backendGenerateSummary (Except.error "quota exceeded")
        = "(Error generating summary: quota exceeded)" ∧
      ¬ containsSeg (backendGenerateSummary (Except.error "quota exceeded"))
          "- **Total Files**: " := by
  refine ⟨rfl, ?_⟩
  intro h
  have hb := (isSubseg_iff _ _).mpr h
  have hf : isSubseg "- **Total Files**: ".data
      (backendGenerateSummary (Except.error "quota exceeded")).data = false := by
    decide
  rw [hb] at hf
  simp at hf

/-- Claim C4 (amended): in `src/app_enhanced.py`, when the language-model
call fails `generate_summary` returns the fully deterministic, non-empty
offline summary of `generate_basic_summary`, built only from the
statistics, the top-level listing and a truncated README excerpt, whose
file/function/class counts exactly match the input statistics and which
includes a primary-language guess chosen by file-count majority; in
`src/backend/main.py`, `generate_summary` instead returns the error string
`"(Error generating summary: <e>)"`. -/
theorem summary_offline_fallback (fb ca : Bool) (e : String) (readme : String)
    (entries : List String) (cs : List (String × FileStructure)) :
    enhancedGenerateSummary fb ca (Except.error e) readme entries cs
        = generateBasicSummary readme entries cs ∧
      (generateBasicSummary readme entries cs).data ≠ [] ∧
      containsSeg (generateBasicSummary readme entries cs)
        ("\n- **Total Files**: " ++ toString cs.length) ∧
      containsSeg (generateBasicSummary readme entries cs)
        ("\n- **Python Files**: " ++ toString (pyCount cs)) ∧
      containsSeg (generateBasicSummary readme entries cs)
        ("\n- **JavaScript/TypeScript Files**: " ++ toString (jsCount cs)) ∧
      containsSeg (generateBasicSummary readme entries cs)
        ("\n- **Total Functions**: " ++ toString (functionCount cs)) ∧
      containsSeg (generateBasicSummary readme entries cs)
        ("\n- **Total Classes**: " ++ toString (classCount cs)) ∧
      containsSeg (generateBasicSummary readme entries cs)
        ("\n### 💡 Analysis Notes\n- This appears to be a "
          ++ primaryLanguageGuess cs) ∧
      (pyCount cs > jsCount cs → primaryLanguageGuess cs = "Python") ∧
      (jsCount cs > pyCount cs →
        primaryLanguageGuess cs = "JavaScript/TypeScript") ∧
      backendGenerateSummary (Except.error e)
        = "(Error generating summary: " ++ e ++ ")" := by
  have h0 : containsSeg (generateBasicSummary readme entries cs)
      "\n## 📋 Repository Overview (Basic Analysis)\n\n### 📊 Project Statistics" := by
    simp only [generateBasicSummary]
    iterate 23 apply containsSeg_append_right
    exact containsSeg_refl _
  refine ⟨?_, ?_, ?_, ?_, ?_, ?_, ?_, ?_, ?_, ?_, ?_⟩
  · cases fb <;> cases ca <;> rfl
  · intro hempty
    rcases h0 with ⟨t, u, hdq⟩
    rw [hempty] at hdq
    rcases List.append_eq_nil.mp hdq with ⟨h1, _⟩
    rcases List.append_eq_nil.mp h1 with ⟨_, h3⟩
    exact (by decide :
      ("\n## 📋 Repository Overview (Basic Analysis)\n\n### 📊 Project Statistics" :
        String).data ≠ []) h3
  · simp only [generateBasicSummary]
    iterate 21 apply containsSeg_append_right
    exact containsSeg_tail _ _ _
  · simp only [generateBasicSummary]
    iterate 19 apply containsSeg_append_right
    exact containsSeg_tail _ _ _
  · simp only [generateBasicSummary]
    iterate 17 apply containsSeg_append_right
    exact containsSeg_tail _ _ _
  · simp only [generateBasicSummary]
    iterate 15 apply containsSeg_append_right
    exact containsSeg_tail _ _ _
  · simp only [generateBasicSummary]
    iterate 13 apply containsSeg_append_right
    exact containsSeg_tail _ _ _
  · simp only [generateBasicSummary]
    iterate 5 apply containsSeg_append_right
    exact containsSeg_tail _ _ _
  · intro h
    simp [primaryLanguageGuess, h]
  · intro h
    have h1 : ¬ (pyCount cs > jsCount cs) := by omega
    simp [primaryLanguageGuess, h1, h]
  · rfl

/-- Witness for the amended C4 theorem: a repository with two Python files
and one JavaScript file is guessed as Python. -/
theorem summary_offline_fallback_witness :
    primaryLanguageGuess
        [("a.py", ⟨["f"], []⟩), ("b.py", ⟨[], []⟩), ("c.js", ⟨[], []⟩)]
        = "Python" :=
  (summary_offline_fallback false true "quota" "" []
      [("a.py", ⟨["f"], []⟩), ("b.py", ⟨[], []⟩), ("c.js", ⟨[], []⟩)]
    ).2.2.2.2.2.2.2.2.1 (by decide)

end Squirrel
